import Mathlib

/-!
Verification of the github-mcp bridge server (src/index.js).

The file embeds the pure computational content of the server: the PR URL
parser, the GitHub REST client's error classification, the paginated
file-change collector, and the text-assembly of the four tool handlers.
Network effects are made explicit: an HTTP response is a value, an upstream
is a function from the request URL to a response, and a fallible JS function
becomes a function into Except (a thrown Error is the .error case).
JS strings are Lean String values; s.slice(0, n) is a take on the
character list, and s.length the character count.
-/

namespace GithubMcp

/-! ## PR URL parser (src/index.js lines 19-30) -/

/-- Result of parsing a pull-request web URL, as built on line 29 of the
source: owner and repo are the first two path segments, number the segment
after the first "pull" segment (kept as a string, no numeric parsing). -/
structure PrRef where
  owner : String
  repo : String
  number : String
deriving DecidableEq

/-- Auxiliary for splitting a pathname at '/' characters: returns the
leading run of non-'/' characters and the words of the remainder (empty
runs dropped, as filter(Boolean) does). -/
def splitAux : List Char → List Char × List String
  | [] => ([], [])
  | c :: cs =>
    let p := splitAux cs
    if c = '/' then ([], if p.1 = [] then p.2 else String.mk p.1 :: p.2)
    else (c :: p.1, p.2)

/-- Embedding of u.pathname.split("/").filter(Boolean) (line 22): the
maximal runs of non-'/' characters of the pathname, in order. -/
def splitFilter (cs : List Char) : List String :=
  let p := splitAux cs
  if p.1 = [] then p.2 else String.mk p.1 :: p.2

/-- Embedding of parts.findIndex((p) => p === "pull") (line 23); none
models the JS result -1. -/
def findPullIdx : List String → Option Nat
  | [] => none
  | s :: rest => if s == "pull" then some 0 else (findPullIdx rest).map (· + 1)

/-- Message thrown on lines 25-27 of the source (the InvalidPrUrl condition). -/
def invalidPrUrlMsg : String :=
  "URL inválida. Esperaba algo como https://github.com/OWNER/REPO/pull/123"

/-- Embedding of parsePrUrl (lines 19-30). The URL has already been taken
apart by the platform's URL constructor; the function receives its hostname
and pathname. The JS test !parts[pullIdx + 1] is an out-of-bounds test,
since filter(Boolean) leaves no empty segment; the short-circuit order of
the three tests on line 24 is preserved by the nesting below. -/
def parsePrUrl (hostname pathname : String) : Except String PrRef :=
  let parts := splitFilter pathname.data
  match findPullIdx parts with
  | none => .error invalidPrUrlMsg
  | some pullIdx =>
    if hostname ≠ "github.com" ∨ pullIdx < 2 then .error invalidPrUrlMsg
    else
      match parts[pullIdx + 1]? with
      | none => .error invalidPrUrlMsg
      | some n => .ok ⟨parts.getD 0 "", parts.getD 1 "", n⟩

/-! ## REST client (src/index.js lines 32-62) -/

/-- An upstream HTTP response: its status, its text body, and its body as
the JSON value resp.json() would produce (kept abstract in a type
parameter; the handlers only ever read typed projections of it). -/
structure HttpResponse (α : Type) where
  status : Nat
  bodyText : String
  body : α

/-- Embedding of resp.ok of the fetch API: status in the range 200-299. -/
def respOk (status : Nat) : Bool := 200 ≤ status && status ≤ 299

/-- Message of the Error thrown on lines 42 and 58 for a non-ok response. -/
def ghErrorMsg (status : Nat) (bodyText : String) : String :=
  "GitHub API error " ++ toString status ++ ": " ++ bodyText

/-- Embedding of ghFetchJson (lines 32-46): on a non-ok response the
function throws carrying status and body text, otherwise it returns the
parsed JSON body. -/
def ghFetchJson {α : Type} (r : HttpResponse α) : Except String α :=
  if respOk r.status then .ok r.body else .error (ghErrorMsg r.status r.bodyText)

/-- Embedding of ghFetchText (lines 48-62): same classification, but the
success value is the raw text body. -/
def ghFetchText {α : Type} (r : HttpResponse α) : Except String String :=
  if respOk r.status then .ok r.bodyText else .error (ghErrorMsg r.status r.bodyText)

/-! ## Paginated file collector (src/index.js lines 68-93) -/

/-- Embedding of const perPage = Math.min(100, Math.max(1, max_files))
(line 69). -/
def perPageOf (max_files : Nat) : Nat := min 100 (max 1 max_files)

/-- Embedding of the while loop of lines 73-90. fetch models one
ghFetchJson call against the files endpoint: its arguments are the
per_page and page query parameters, its result the returned array (the
!Array.isArray(batch) test never fires for an upstream that returns
arrays, which every upstream modelled here does). The loop is written on
fuel; collectLoop_fuel_ge below shows any fuel above max_files - all.length
gives the value of the unbounded loop. The Nat result counts the page
requests issued. -/
def collectLoop {α : Type} (fetch : Nat → Nat → List α) (max_files : Nat) :
    Nat → Nat → List α → Nat → List α × Nat
  | 0, _page, all, reqs => (all, reqs)
  | fuel + 1, page, all, reqs =>
    if all.length < max_files then
      let currentPerPage := min (perPageOf max_files) (max_files - all.length)
      let batch := fetch currentPerPage page
      if batch.length = 0 then (all, reqs + 1)
      else if batch.length < currentPerPage then (all ++ batch, reqs + 1)
      else collectLoop fetch max_files fuel (page + 1) (all ++ batch) (reqs + 1)
    else (all, reqs)

/-- Embedding of listPrFilesPaginated (lines 68-93): run the loop from
page 1 with an empty accumulator, then return all.slice(0, max_files),
paired with the number of page requests the loop issued. -/
def listPrFilesPaginated {α : Type} (fetch : Nat → Nat → List α) (max_files : Nat) :
    List α × Nat :=
  let r := collectLoop fetch max_files (max_files + 1) 1 [] 0
  (r.1.take max_files, r.2)

/-- Modelled from the spec: the upstream GitHub files endpoint is not part
of this repository. GitHub's documented list semantics for per_page and
page: the request returns the slice of the P stored records starting at
offset (page - 1) * per_page, of length at most per_page. Records are
represented by their indices 0, 1, ..., total - 1. -/
def ghPage (total per_page page : Nat) : List Nat :=
  ((List.range total).drop ((page - 1) * per_page)).take per_page

/-! ## Truncation of diff text (src/index.js lines 148-181 and 229-243) -/

/-- Embedding of s.slice(0, n) for a JS string and n ≥ 0: the first n
characters. -/
def jsSlice (s : String) (n : Nat) : String := String.mk (s.data.take n)

/-- Embedding of the text block built by the github_get_pull_request_diff
handler (lines 164-179): header line, optional truncation notice (only
when the cap is positive and the diff is longer), then the possibly
truncated diff. A cap of 0 returns the diff whole. -/
def diffToolText (pr_url diff : String) (max_diff_chars : Nat) : String :=
  let out := if max_diff_chars = 0 then diff else jsSlice diff max_diff_chars
  "PR Diff (unified) for " ++ pr_url ++ "\n" ++
    (if 0 < max_diff_chars ∧ max_diff_chars < diff.length then
      "(truncado a " ++ toString max_diff_chars ++ " chars de " ++
        toString diff.length ++ ")\n\n"
    else "\n\n") ++ out

/-- Embedding of the diffBlock of the github_summarize_pull_request handler
(lines 229-243): empty unless include_diff, otherwise the same truncation
policy with a one-newline notice suffix. -/
def summarizeDiffBlock (include_diff : Bool) (diff : String) (max_diff_chars : Nat) : String :=
  if include_diff then
    let out := if max_diff_chars = 0 then diff else jsSlice diff max_diff_chars
    "\n\nUnified diff (global):\n" ++
      (if 0 < max_diff_chars ∧ max_diff_chars < diff.length then
        "(truncado a " ++ toString max_diff_chars ++ " chars de " ++
          toString diff.length ++ ")\n"
      else "") ++ out
  else ""

/-! ## Per-file lines of the summary (src/index.js lines 219-227) -/

/-- One file-change record of the files endpoint, as the handler reads it.
An absent patch field (f.patch || "") is the empty string. -/
structure FileChangeRecord where
  filename : String
  additions : Nat
  deletions : Nat
  status : String
  patch : String
deriving DecidableEq

/-- Embedding of the base line of line 220. -/
def fileBaseLine (f : FileChangeRecord) : String :=
  "- " ++ f.filename ++ " (+" ++ toString f.additions ++ "/-" ++
    toString f.deletions ++ ") [" ++ f.status ++ "]"

/-- Embedding of patch.replace(/\n/g, "\n  ") (line 225): two spaces
inserted after every newline; the replacement is not rescanned, matching
the JS global replace. -/
def indentNl : List Char → List Char
  | [] => []
  | c :: cs => if c = '\n' then '\n' :: ' ' :: ' ' :: indentNl cs else c :: indentNl cs

/-- Embedding of the per-file mapping of lines 219-227: without patches the
base line; otherwise the patch is truncated first, and an empty truncation
result (JS falsy) drops the patch block entirely. -/
def fileLine (include_patches : Bool) (max_patch_chars : Nat) (f : FileChangeRecord) : String :=
  if !include_patches then fileBaseLine f
  else
    let patch := jsSlice f.patch max_patch_chars
    if patch = "" then fileBaseLine f
    else fileBaseLine f ++ "\n  patch:\n" ++ String.mk (indentNl patch.data)

/-! ## Summary text assembly (src/index.js lines 245-273) -/

/-- The PR metadata fields the summarize handler reads from the JSON of the
pulls endpoint. user_login stands for pr.user?.login, base_ref and
head_ref for pr.base?.ref and pr.head?.ref; body is "" when the JSON body
is null or empty (both are falsy on line 256). -/
structure PrData where
  html_url : String
  title : String
  user_login : String
  state : String
  draft : Bool
  merged : Bool
  base_ref : String
  head_ref : String
  commits : Nat
  changed_files : Nat
  additions : Nat
  deletions : Nat
  body : String
deriving DecidableEq

/-- Embedding of the array-join of lines 245-260: the structured report
body, one field line per entry, joined with newlines. -/
def summarizeText (pr : PrData) (max_files : Nat) (fileLines : List String) : String :=
  String.intercalate "\n" [
    "PR: " ++ pr.html_url,
    "Title: " ++ pr.title,
    "Author: " ++ pr.user_login,
    "State: " ++ pr.state ++ " | Draft: " ++ (if pr.draft then "yes" else "no") ++
      " | Merged: " ++ (if pr.merged then "yes" else "no"),
    "Base: " ++ pr.base_ref ++ " <- Head: " ++ pr.head_ref,
    "Commits: " ++ toString pr.commits ++ " | Files changed: " ++
      toString pr.changed_files ++ " | Additions: " ++ toString pr.additions ++
      " | Deletions: " ++ toString pr.deletions,
    "",
    "Description (body):",
    (if pr.body = "" then "(empty)" else pr.body),
    "",
    "Changed files (up to " ++ toString max_files ++ "):",
    String.intercalate "\n\n" fileLines
  ]

/-- Embedding of the content text returned on lines 262-273: a fixed
instructional preamble, then the structured report, then the diff block. -/
def summarizeOutput (pr : PrData) (max_files : Nat) (fileLines : List String)
    (diffBlock : String) : String :=
  "Usá el siguiente material para generar un resumen. " ++
    "Incluí: objetivo, cambios principales, archivos tocados, impacto, riesgos, checklist de revisión, y sugerencias de test.\n\n" ++
    summarizeText pr max_files fileLines ++ diffBlock

/-! ## List pull requests tool (src/index.js lines 119-142) -/

/-- The fields of one pull request the list handler reads. -/
structure PrListItem where
  number : Nat
  title : String
  user_login : String
  html_url : String
deriving DecidableEq

/-- Embedding of the line template of line 135. -/
def prLine (pr : PrListItem) : String :=
  "#" ++ toString pr.number ++ " " ++ pr.title ++ " — " ++ pr.user_login ++
    " — " ++ pr.html_url

/-- Embedding of lines.join("\n") || "(no PRs)" (line 139): the joined
lines, or the literal fallback when the join is empty (JS falsy). -/
def listPullRequestsText (prs : List PrListItem) : String :=
  let joined := String.intercalate "\n" (prs.map prLine)
  if joined = "" then "(no PRs)" else joined

/-- Embedding of the URL built on lines 129-131. -/
def pullsListUrl (owner repo state : String) (per_page : Nat) : String :=
  "https://api.github.com/repos/" ++ owner ++ "/" ++ repo ++ "/pulls?state=" ++
    state ++ "&per_page=" ++ toString per_page

/-- Embedding of the github_list_pull_requests handler (lines 119-142)
over an upstream mapping request URLs to responses: fetch the single page
and format it; a fetch failure propagates (the await rethrows). -/
def githubListPullRequests (upstream : String → HttpResponse (List PrListItem))
    (owner repo state : String) (per_page : Nat) : Except String String :=
  match ghFetchJson (upstream (pullsListUrl owner repo state per_page)) with
  | .error e => .error e
  | .ok prs => .ok (listPullRequestsText prs)

/-! ## Get pull request diff tool (src/index.js lines 148-181) -/

/-- Embedding of the pulls endpoint URL of line 160. -/
def prApiUrl (ref : PrRef) : String :=
  "https://api.github.com/repos/" ++ ref.owner ++ "/" ++ ref.repo ++ "/pulls/" ++ ref.number

/-- A pull-request URL as the platform's URL constructor delivers it to the
handler: the raw string (used verbatim in the header line) and its parsed
hostname and pathname. -/
structure JsUrl where
  raw : String
  hostname : String
  pathname : String

/-- Embedding of the github_get_pull_request_diff handler (lines 148-181):
parse the URL, fetch the diff by content negotiation, format. Both the
parse failure and the fetch failure propagate and abort the handler. -/
def githubGetPullRequestDiff (upstream : String → HttpResponse String)
    (u : JsUrl) (max_diff_chars : Nat) : Except String String :=
  match parsePrUrl u.hostname u.pathname with
  | .error e => .error e
  | .ok ref =>
    match ghFetchText (upstream (prApiUrl ref)) with
    | .error e => .error e
    | .ok diff => .ok (diffToolText u.raw diff max_diff_chars)

/-! ## Lemmas about the collector -/

/-- Fuel irrelevance: any fuel exceeding the number of records still
missing gives the same run as any other, so listPrFilesPaginated with fuel
max_files + 1 is the value of the unbounded JS while loop. -/
theorem collectLoop_fuel_ge {α : Type} (fetch : Nat → Nat → List α) (max_files : Nat) :
    ∀ (fuel fuel' page : Nat) (all : List α) (reqs : Nat),
      max_files - all.length < fuel → max_files - all.length < fuel' →
      collectLoop fetch max_files fuel page all reqs =
        collectLoop fetch max_files fuel' page all reqs := by
  intro fuel
  induction fuel with
  | zero => intro fuel' page all reqs h _; omega
  | succ f ih =>
    intro fuel' page all reqs h h'
    match fuel', h' with
    | f' + 1, h' =>
      simp only [collectLoop]
      by_cases hlen : all.length < max_files
      · simp only [if_pos hlen]
        set cpp := min (perPageOf max_files) (max_files - all.length) with hcpp
        set batch := fetch cpp page with hbatch
        by_cases hz : batch.length = 0
        · simp [hz]
        · simp only [if_neg hz]
          by_cases hs : batch.length < cpp
          · simp [hs]
          · simp only [if_neg hs]
            apply ih
            · have hcp1 : 1 ≤ cpp := by
                have : 1 ≤ perPageOf max_files := by
                  unfold perPageOf; omega
                have : 1 ≤ max_files - all.length := by omega
                omega
              have : cpp ≤ batch.length := Nat.le_of_not_lt hs
              simp only [List.length_append]
              omega
            · have hcp1 : 1 ≤ cpp := by
                have : 1 ≤ perPageOf max_files := by
                  unfold perPageOf; omega
                have : 1 ≤ max_files - all.length := by omega
                omega
              have : cpp ≤ batch.length := Nat.le_of_not_lt hs
              simp only [List.length_append]
              omega
      · simp [if_neg hlen]

/-- First-iteration page size: with max_files ≥ 1 and an empty
accumulator the requested per_page is min 100 max_files. -/
theorem firstPerPage (M : Nat) (hM : 1 ≤ M) :
    min (perPageOf M) (M - 0) = min 100 M := by
  unfold perPageOf
  omega

/-- Claim C6. When listPrFilesPaginated is reached with max_files = 0 the
loop condition fails at once: no upstream request is issued and the
result is the empty sequence. -/
theorem collect_max_files_zero {α : Type} (fetch : Nat → Nat → List α) :
    listPrFilesPaginated fetch 0 = ([], 0) := by
  simp [listPrFilesPaginated, collectLoop]

/-- Witness for collect_max_files_zero at a concrete upstream. -/
theorem collect_max_files_zero_witness :
    listPrFilesPaginated (fun _ _ => ([7, 8] : List Nat)) 0 = ([], 0) :=
  collect_max_files_zero (fun _ _ => ([7, 8] : List Nat))

/-- Claim C5. Whenever the first page comes back non-empty but strictly
shorter than the per-page size requested for it (min 100 max_files), the
collector issues exactly one page request and returns that page. -/
theorem collect_stops_on_short_first_page {α : Type} (fetch : Nat → Nat → List α)
    (M : Nat) (hM : 1 ≤ M) (hne : (fetch (min 100 M) 1).length ≠ 0)
    (hshort : (fetch (min 100 M) 1).length < min 100 M) :
    listPrFilesPaginated fetch M = (fetch (min 100 M) 1, 1) := by
  obtain ⟨m, rfl⟩ : ∃ m, M = m + 1 := ⟨M - 1, by omega⟩
  simp only [listPrFilesPaginated, collectLoop, List.length_nil,
    if_pos (show 0 < m + 1 by omega), firstPerPage (m + 1) hM, if_neg hne,
    if_pos hshort, List.nil_append]
  refine Prod.ext ?_ rfl
  exact List.take_of_length_le (by
    have := Nat.min_le_right 100 (m + 1); omega)

/-- Witness for collect_stops_on_short_first_page: upstream with a single
short page of three records under max_files = 5. -/
theorem collect_stops_on_short_first_page_witness :
    listPrFilesPaginated (fun _ _ => ([0, 1, 2] : List Nat)) 5 = ([0, 1, 2], 1) :=
  collect_stops_on_short_first_page (fun _ _ => ([0, 1, 2] : List Nat)) 5
    (by decide) (by decide) (by decide)

/-- One full small-case run of the collector against the GitHub-style
upstream: with 1 ≤ max_files ≤ 100 and at least one record upstream, the
collector returns the first min total max_files records in one request. -/
theorem listPrFilesPaginated_ghPage_small (P M : Nat) (h1 : 1 ≤ M) (h100 : M ≤ 100)
    (hP : 1 ≤ P) : listPrFilesPaginated (ghPage P) M = (List.range (min P M), 1) := by
  obtain ⟨m, rfl⟩ : ∃ m, M = m + 1 := ⟨M - 1, by omega⟩
  have hpp : min 100 (m + 1) = m + 1 := by omega
  have hbatch : ghPage P (m + 1) 1 = List.range (min (m + 1) P) := by
    simp [ghPage, List.take_range]
  rcases Nat.lt_or_ge P (m + 1) with hlt | hge
  · -- short first page: total < max_files
    have hmin : min (m + 1) P = P := by omega
    have hmin' : min P (m + 1) = P := by omega
    have := collect_stops_on_short_first_page (ghPage P) (m + 1) h1
      (by rw [hpp, hbatch, hmin]; simpa using by omega)
      (by rw [hpp, hbatch, hmin]; simpa using hlt)
    rw [this, hpp, hbatch, hmin, hmin']
  · -- full first page: exactly max_files records collected, loop re-test stops
    have hmin : min (m + 1) P = m + 1 := by omega
    have hmin' : min P (m + 1) = m + 1 := by omega
    have hlen : (ghPage P (m + 1) 1).length = m + 1 := by
      rw [hbatch, hmin, List.length_range]
    simp only [listPrFilesPaginated, collectLoop, List.length_nil,
      if_pos (show 0 < m + 1 by omega), firstPerPage (m + 1) h1, hpp, hlen,
      if_neg (show ¬(m + 1 = 0) by omega), if_neg (show ¬(m + 1 < m + 1) by omega),
      List.nil_append]
    rw [hbatch, hmin, hmin', List.take_of_length_le (le_of_eq (List.length_range _))]

/-- Claim C1, amended. Against the GitHub-style upstream with P records:
whenever 1 ≤ max_files ≤ 100 and P ≥ 1, the collector returns exactly
min P max_files records in exactly the claimed ceil(min P max_files / S)
page requests with S = min 100 max_files; and for every upstream and every
max_files the returned sequence has length at most max_files. -/
theorem listPrFilesPaginated_exact_small :
    (∀ P M : Nat, 1 ≤ M → M ≤ 100 → 1 ≤ P →
      (listPrFilesPaginated (ghPage P) M).1.length = min P M ∧
      (listPrFilesPaginated (ghPage P) M).2 = (min P M + min 100 M - 1) / min 100 M) ∧
    (∀ (fetch : Nat → Nat → List Nat) (M : Nat),
      (listPrFilesPaginated fetch M).1.length ≤ M) := by
  constructor
  · intro P M h1 h100 hP
    rw [listPrFilesPaginated_ghPage_small P M h1 h100 hP]
    refine ⟨by simp, ?_⟩
    have hS : min 100 M = M := by omega
    have hx1 : 1 ≤ min P M := by omega
    have hx2 : min P M ≤ M := by omega
    rw [hS]
    exact (Nat.div_eq_of_lt_le (by omega) (by omega)).symm
  · intro fetch M
    simp only [listPrFilesPaginated, List.length_take]
    omega

/-- Witness for listPrFilesPaginated_exact_small: both conjuncts applied at
concrete inputs (P = 5, max_files = 3, and the length cap at max_files = 4). -/
theorem listPrFilesPaginated_exact_small_witness :
    (listPrFilesPaginated (ghPage 5) 3).1.length = min 5 3 ∧
    (listPrFilesPaginated (ghPage 5) 3).2 = (min 5 3 + min 100 3 - 1) / min 100 3 ∧
    (listPrFilesPaginated (ghPage 7) 4).1.length ≤ 4 :=
  ⟨(listPrFilesPaginated_exact_small.1 5 3 (by decide) (by decide) (by decide)).1,
   (listPrFilesPaginated_exact_small.1 5 3 (by decide) (by decide) (by decide)).2,
   listPrFilesPaginated_exact_small.2 (ghPage 7) 4⟩

set_option maxRecDepth 8000 in
/-- Counterexample to claim C1 as stated. With P = 120 records upstream and
max_files = 150 the code requests per_page 100 / page 1 and then per_page
50 / page 2; against GitHub pagination semantics the second request
re-reads offsets 50-99, so 150 records come back (record 50 twice) where
the claim demands min P max_files = 120. And with P = 0, max_files = 1 one
page request is issued where the claimed ceiling formula gives 0. -/
theorem listPrFilesPaginated_overcount_cex :
    (listPrFilesPaginated (ghPage 120) 150).1.length = 150 ∧
    ¬ ((150 : Nat) = min 120 150) ∧
    (listPrFilesPaginated (ghPage 120) 150).1.count 50 = 2 ∧
    (listPrFilesPaginated (ghPage 0) 1).2 = 1 ∧
    ¬ ((1 : Nat) = (min 0 1 + min 100 1 - 1) / min 100 1) := by
  refine ⟨by decide, by decide, by decide, by decide, by decide⟩

/-! ## Lemmas about the URL parser -/

theorem string_data_append (s t : String) : (s ++ t).data = s.data ++ t.data := rfl

theorem string_mk_data (s : String) : String.mk s.data = s := rfl

theorem data_ne_nil (s : String) (h : s ≠ "") : s.data ≠ [] := by
  intro hd
  apply h
  cases s with
  | mk d => cases hd; rfl

/-- Splitting a run of non-slash characters consumes it whole. -/
theorem splitAux_no_slash (w : List Char) (hw : ∀ c ∈ w, c ≠ '/') :
    splitAux w = (w, []) := by
  induction w with
  | nil => rfl
  | cons c cs ih =>
    have hc : c ≠ '/' := hw c (by simp)
    simp [splitAux, ih (fun d hd => hw d (by simp [hd])), hc]

/-- Splitting a slash-free word followed by a slash isolates the word. -/
theorem splitAux_append_slash (w rest : List Char) (hw : ∀ c ∈ w, c ≠ '/') :
    splitAux (w ++ '/' :: rest) = (w, splitFilter rest) := by
  induction w with
  | nil => simp [splitAux, splitFilter]
  | cons c cs ih =>
    have hc : c ≠ '/' := hw c (by simp)
    simp [splitAux, ih (fun d hd => hw d (by simp [hd])), hc]

/-- A leading slash contributes no segment. -/
theorem splitFilter_slash (rest : List Char) :
    splitFilter ('/' :: rest) = splitFilter rest := by
  have h := splitAux_append_slash [] rest (by simp)
  simp only [List.nil_append] at h
  simp [splitFilter, h]

/-- A non-empty slash-free word before a slash becomes one segment. -/
theorem splitFilter_word (w rest : List Char) (hw0 : w ≠ [])
    (hw : ∀ c ∈ w, c ≠ '/') :
    splitFilter (w ++ '/' :: rest) = String.mk w :: splitFilter rest := by
  simp [splitFilter, splitAux_append_slash w rest hw, hw0]

/-- A non-empty slash-free trailing word becomes the last segment. -/
theorem splitFilter_word_end (w : List Char) (hw0 : w ≠ [])
    (hw : ∀ c ∈ w, c ≠ '/') : splitFilter w = [String.mk w] := by
  simp [splitFilter, splitAux_no_slash w hw, hw0]

/-- Segments of the canonical pull-request pathname /O/R/pull/N. -/
theorem splitFilter_pr_path (O R N : String) (hO : O ≠ "") (hR : R ≠ "") (hN : N ≠ "")
    (hOs : ∀ c ∈ O.data, c ≠ '/') (hRs : ∀ c ∈ R.data, c ≠ '/')
    (hNs : ∀ c ∈ N.data, c ≠ '/') :
    splitFilter (("/" ++ O ++ "/" ++ R ++ "/pull/" ++ N).data) = [O, R, "pull", N] := by
  have hdata : ("/" ++ O ++ "/" ++ R ++ "/pull/" ++ N).data
      = '/' :: (O.data ++ '/' :: (R.data ++ '/' :: 'p' :: 'u' :: 'l' :: 'l' :: '/' :: N.data)) := by
    simp only [string_data_append]
    simp [List.append_assoc]
  rw [hdata, splitFilter_slash,
    splitFilter_word O.data _ (data_ne_nil O hO) hOs, string_mk_data,
    splitFilter_word R.data _ (data_ne_nil R hR) hRs, string_mk_data,
    show ('p' :: 'u' :: 'l' :: 'l' :: '/' :: N.data : List Char)
      = ['p', 'u', 'l', 'l'] ++ '/' :: N.data from rfl,
    splitFilter_word ['p', 'u', 'l', 'l'] _ (by decide) (by decide),
    splitFilter_word_end N.data (data_ne_nil N hN) hNs, string_mk_data]

/-! ## Lemmas about findPullIdx -/

theorem findPullIdx_cons_ne (s : String) (l : List String) (h : s ≠ "pull") :
    findPullIdx (s :: l) = (findPullIdx l).map (· + 1) := by
  simp [findPullIdx, h]

/-- The reported index really holds a "pull" segment. -/
theorem findPullIdx_index (l : List String) (i : Nat) (h : findPullIdx l = some i) :
    l[i]? = some "pull" := by
  induction l generalizing i with
  | nil => simp [findPullIdx] at h
  | cons s rest ih =>
    by_cases hs : s = "pull"
    · subst hs
      simp [findPullIdx] at h
      subst h
      simp
    · rw [findPullIdx_cons_ne s rest hs] at h
      obtain ⟨j, hj, rfl⟩ := Option.map_eq_some'.mp h
      simpa using ih j hj

/-- Index of the first "pull" after a pull-free run of segments. -/
theorem findPullIdx_prepend (mid : List String) (tail : List String)
    (h : "pull" ∉ mid) : findPullIdx (mid ++ "pull" :: tail) = some mid.length := by
  induction mid with
  | nil => simp [findPullIdx]
  | cons s rest ih =>
    have hs : s ≠ "pull" := fun e => h (by simp [e])
    rw [List.cons_append, findPullIdx_cons_ne s _ hs,
      ih (fun hm => h (by simp [hm]))]
    rfl

/-- Success characterization of parsePrUrl: hostname github.com, first
"pull" segment at index ≥ 2 and followed by a segment. Owner and repo are
the first two segments; segments between repo and "pull" and after the
number are ignored. -/
theorem parsePrUrl_ok_of (host path o r n : String) (mid post : List String)
    (hsplit : splitFilter path.data = o :: r :: (mid ++ "pull" :: n :: post))
    (hhost : host = "github.com") (ho : o ≠ "pull") (hr : r ≠ "pull")
    (hmid : "pull" ∉ mid) : parsePrUrl host path = .ok ⟨o, r, n⟩ := by
  subst hhost
  have hfind : findPullIdx (o :: r :: (mid ++ "pull" :: n :: post))
      = some (mid.length + 1 + 1) := by
    rw [findPullIdx_cons_ne o _ ho, findPullIdx_cons_ne r _ hr,
      findPullIdx_prepend mid _ hmid]
    rfl
  have hnext : (o :: r :: (mid ++ "pull" :: n :: post))[mid.length + 1 + 1 + 1]? = some n := by
    rw [List.getElem?_cons_succ, List.getElem?_cons_succ,
      List.getElem?_append_right (by omega : mid.length ≤ mid.length + 1)]
    simp
  simp only [parsePrUrl, hsplit, hfind]
  rw [if_neg (not_or.mpr ⟨by simp, by omega⟩)]
  simp only [hnext]
  rfl

/-- Failure characterization of parsePrUrl, matching the three conditions
of the claim: wrong host, no "pull" segment at index ≥ 2, or no segment
after any "pull" segment. -/
theorem parsePrUrl_fails (host path : String)
    (h : host ≠ "github.com" ∨
      (∀ i, 2 ≤ i → (splitFilter path.data)[i]? ≠ some "pull") ∨
      (∀ i, (splitFilter path.data)[i]? = some "pull" →
        (splitFilter path.data)[i + 1]? = none)) :
    parsePrUrl host path = .error invalidPrUrlMsg := by
  cases hfind : findPullIdx (splitFilter path.data) with
  | none => simp [parsePrUrl, hfind]
  | some i =>
    have hmem := findPullIdx_index _ i hfind
    simp only [parsePrUrl, hfind]
    rcases h with hh | hno | hnext
    · rw [if_pos (Or.inl hh)]
    · by_cases h2 : i < 2
      · rw [if_pos (Or.inr h2)]
      · exact absurd hmem (hno i (by omega))
    · by_cases hcond : host ≠ "github.com" ∨ i < 2
      · rw [if_pos hcond]
      · rw [if_neg hcond, hnext i hmem]

/-- Vocabulary of the claim: a numeric-looking segment is a non-empty
run of decimal digits. -/
def numericLooking (s : String) : Bool := !s.data.isEmpty && s.data.all (·.isDigit)

/-- Equality of Except values is decidable when both components are. -/
instance {ε α : Type} [DecidableEq ε] [DecidableEq α] : DecidableEq (Except ε α)
  | .error a, .error b =>
    if h : a = b then .isTrue (by rw [h]) else .isFalse fun hh => h (Except.error.inj hh)
  | .error _, .ok _ => .isFalse fun hh => Except.noConfusion hh
  | .ok _, .error _ => .isFalse fun hh => Except.noConfusion hh
  | .ok a, .ok b =>
    if h : a = b then .isTrue (by rw [h]) else .isFalse fun hh => h (Except.ok.inj hh)

/-- Claim C2, amended: owner and repo must also differ from the literal
segment "pull" (otherwise findIndex locates that earlier occurrence at
index below 2 and the parser rejects). First conjunct: every canonical
https://github.com/O/R/pull/N URL parses to owner O, repo R, number N.
Second conjunct: a URL with a different host, with no "pull" segment at
index at least 2, or with no segment after any "pull" segment is
rejected with the InvalidPrUrl message. -/
theorem parsePrUrl_canonical_amended :
    (∀ O R N : String, O ≠ "" → R ≠ "" → O ≠ "pull" → R ≠ "pull" →
      (∀ c ∈ O.data, c ≠ '/') → (∀ c ∈ R.data, c ≠ '/') → numericLooking N = true →
      parsePrUrl "github.com" ("/" ++ O ++ "/" ++ R ++ "/pull/" ++ N) = .ok ⟨O, R, N⟩) ∧
    (∀ host path : String,
      (host ≠ "github.com" ∨
        (∀ i, 2 ≤ i → (splitFilter path.data)[i]? ≠ some "pull") ∨
        (∀ i, (splitFilter path.data)[i]? = some "pull" →
          (splitFilter path.data)[i + 1]? = none)) →
      parsePrUrl host path = .error invalidPrUrlMsg) := by
  constructor
  · intro O R N hO hR hOp hRp hOs hRs hNnum
    simp only [numericLooking, Bool.and_eq_true, List.all_eq_true] at hNnum
    have hNe : N ≠ "" := by
      intro h
      subst h
      exact absurd hNnum.1 (by decide)
    have hNs : ∀ c ∈ N.data, c ≠ '/' := by
      intro c hc he
      have hd := hNnum.2 c hc
      rw [he] at hd
      exact absurd hd (by decide)
    exact parsePrUrl_ok_of "github.com" _ O R N [] []
      (by simpa using splitFilter_pr_path O R N hO hR hNe hOs hRs hNs)
      rfl hOp hRp (by simp)
  · exact parsePrUrl_fails

/-- Witness for parsePrUrl_canonical_amended: both conjuncts at concrete
URLs. -/
theorem parsePrUrl_canonical_witness :
    parsePrUrl "github.com" ("/" ++ "acme" ++ "/" ++ "widgets" ++ "/pull/" ++ "42")
      = .ok ⟨"acme", "widgets", "42"⟩ ∧
    parsePrUrl "gitlab.com" "/acme/widgets/pull/42" = .error invalidPrUrlMsg :=
  ⟨parsePrUrl_canonical_amended.1 "acme" "widgets" "42" (by decide) (by decide)
      (by decide) (by decide) (by decide) (by decide) (by decide),
   parsePrUrl_canonical_amended.2 "gitlab.com" "/acme/widgets/pull/42"
      (Or.inl (by decide))⟩

/-- Counterexample to claim C2 as stated: owner "pull" and repo "widgets"
are non-empty and the number is numeric-looking, yet the parser rejects
the URL /pull/widgets/pull/5, because findIndex finds the owner segment
first and its index 0 fails the index test. -/
theorem parsePrUrl_owner_pull_cex :
    parsePrUrl "github.com" "/pull/widgets/pull/5" = .error invalidPrUrlMsg ∧
    ¬ parsePrUrl "github.com" "/pull/widgets/pull/5" = .ok ⟨"pull", "widgets", "5"⟩ ∧
    ("pull" : String) ≠ "" ∧ ("widgets" : String) ≠ "" ∧ numericLooking "5" = true := by
  refine ⟨by decide, by decide, by decide, by decide, by decide⟩

/-- Claim C9, amended: the precondition is on the FIRST "pull" segment.
Whenever the hostname is github.com and the split path reads
o :: r :: mid ++ "pull" :: n :: post with no "pull" in o, r or mid, the
parser succeeds with owner o, repo r and number n, ignoring the extra
segments mid before "pull" and post after the number. -/
theorem parsePrUrl_segments_amended (o r n : String) (mid post : List String)
    (path : String)
    (hsplit : splitFilter path.data = o :: r :: (mid ++ "pull" :: n :: post))
    (ho : o ≠ "pull") (hr : r ≠ "pull") (hmid : "pull" ∉ mid) :
    parsePrUrl "github.com" path = .ok ⟨o, r, n⟩ :=
  parsePrUrl_ok_of "github.com" path o r n mid post hsplit rfl ho hr hmid

/-- Witness for parsePrUrl_segments_amended: the two examples of the
claim, /a/b/c/pull/5 and /a/b/pull/123/files. -/
theorem parsePrUrl_segments_witness :
    parsePrUrl "github.com" "/a/b/c/pull/5" = .ok ⟨"a", "b", "5"⟩ ∧
    parsePrUrl "github.com" "/a/b/pull/123/files" = .ok ⟨"a", "b", "123"⟩ :=
  ⟨parsePrUrl_segments_amended "a" "b" "5" ["c"] [] "/a/b/c/pull/5"
      (by decide) (by decide) (by decide) (by decide),
   parsePrUrl_segments_amended "a" "b" "123" [] ["files"] "/a/b/pull/123/files"
      (by decide) (by decide) (by decide) (by decide)⟩

/-- Counterexample to claim C9 as stated: the path /pull/b/pull/5 contains
a "pull" segment at index 2 followed by a non-empty segment, yet the
parser rejects it, because the FIRST "pull" segment sits at index 0. -/
theorem parsePrUrl_second_pull_cex :
    (splitFilter ("/pull/b/pull/5" : String).data)[2]? = some "pull" ∧
    (splitFilter ("/pull/b/pull/5" : String).data)[3]? = some "5" ∧
    parsePrUrl "github.com" "/pull/b/pull/5" = .error invalidPrUrlMsg := by
  refine ⟨by decide, by decide, by decide⟩

/-! ## Truncation policy (claim C3) -/

theorem jsSlice_length (s : String) (n : Nat) : (jsSlice s n).length = min n s.length :=
  List.length_take n s.data

theorem jsSlice_of_le (s : String) (n : Nat) (h : s.length ≤ n) : jsSlice s n = s := by
  rw [jsSlice, List.take_of_length_le h, string_mk_data]

/-- Claim C3. Shared truncation policy of the two diff-returning tools.
With a positive cap below the diff length the diff portion of the output
has length exactly the cap and both texts carry the notice naming cap and
original length; with cap 0 the whole diff is returned and no notice is
emitted; with a cap at least the length the whole diff is returned and no
notice is emitted. -/
theorem diff_truncation_policy (u diff : String) (C : Nat) :
    (0 < C → C < diff.length →
      (jsSlice diff C).length = C ∧
      diffToolText u diff C = "PR Diff (unified) for " ++ u ++ "\n" ++
        ("(truncado a " ++ toString C ++ " chars de " ++ toString diff.length ++ ")\n\n") ++
        jsSlice diff C ∧
      summarizeDiffBlock true diff C = "\n\nUnified diff (global):\n" ++
        ("(truncado a " ++ toString C ++ " chars de " ++ toString diff.length ++ ")\n") ++
        jsSlice diff C) ∧
    (C = 0 →
      diffToolText u diff C = "PR Diff (unified) for " ++ u ++ "\n" ++ "\n\n" ++ diff ∧
      summarizeDiffBlock true diff C = "\n\nUnified diff (global):\n" ++ "" ++ diff) ∧
    (0 < C → diff.length ≤ C →
      diffToolText u diff C = "PR Diff (unified) for " ++ u ++ "\n" ++ "\n\n" ++ diff ∧
      summarizeDiffBlock true diff C = "\n\nUnified diff (global):\n" ++ "" ++ diff) := by
  refine ⟨fun h1 h2 => ⟨?_, ?_, ?_⟩, fun h0 => ⟨?_, ?_⟩, fun h1 h2 => ⟨?_, ?_⟩⟩
  · rw [jsSlice_length]; omega
  · simp only [diffToolText, if_neg (by omega : ¬ C = 0), if_pos (And.intro h1 h2)]
  · simp only [summarizeDiffBlock, if_pos rfl, if_neg (by omega : ¬ C = 0),
      if_pos (And.intro h1 h2)]
    rfl
  · subst h0
    simp only [diffToolText, if_pos rfl,
      if_neg (by omega : ¬ (0 < 0 ∧ 0 < diff.length))]
    rfl
  · subst h0
    simp only [summarizeDiffBlock, if_pos rfl,
      if_neg (by omega : ¬ (0 < 0 ∧ 0 < diff.length))]
    rfl
  · simp only [diffToolText, if_neg (by omega : ¬ C = 0),
      if_neg (by omega : ¬ (0 < C ∧ C < diff.length)), jsSlice_of_le diff C h2]
  · simp only [summarizeDiffBlock, if_pos rfl, if_neg (by omega : ¬ C = 0),
      if_neg (by omega : ¬ (0 < C ∧ C < diff.length)), jsSlice_of_le diff C h2]
    rfl

/-- Witness for diff_truncation_policy: diff abcdef of length 6 with caps
3, 0 and 10. -/
theorem diff_truncation_policy_witness :
    (jsSlice "abcdef" 3).length = 3 ∧
    diffToolText "u" "abcdef" 3 = "PR Diff (unified) for " ++ "u" ++ "\n" ++
      ("(truncado a " ++ toString 3 ++ " chars de " ++
        toString ("abcdef" : String).length ++ ")\n\n") ++ jsSlice "abcdef" 3 ∧
    diffToolText "u" "abcdef" 0 = "PR Diff (unified) for " ++ "u" ++ "\n" ++ "\n\n" ++ "abcdef" ∧
    diffToolText "u" "abcdef" 10 = "PR Diff (unified) for " ++ "u" ++ "\n" ++ "\n\n" ++ "abcdef" :=
  ⟨((diff_truncation_policy "u" "abcdef" 3).1 (by decide) (by decide)).1,
   ((diff_truncation_policy "u" "abcdef" 3).1 (by decide) (by decide)).2.1,
   ((diff_truncation_policy "u" "abcdef" 0).2.1 rfl).1,
   ((diff_truncation_policy "u" "abcdef" 10).2.2 (by decide) (by decide)).1⟩

/-! ## Patch excerpt policy (claim C10) -/

theorem indentNl_length (l : List Char) :
    (indentNl l).length = l.length + 2 * l.count '\n' := by
  induction l with
  | nil => rfl
  | cons c cs ih =>
    by_cases hc : c = '\n'
    · subst hc
      simp [indentNl, ih, List.count_cons]
      omega
    · simp [indentNl, hc, ih, List.count_cons]
      omega

/-- Claim C10, amended. With max_patch_chars = 0 the patch block is
omitted entirely, for every file, even with include_patches true and a
non-empty patch. With a positive cap the excerpt taken from the patch has
at most max_patch_chars characters; the emitted indented form inserts two
spaces after each of its newlines, so its length is bounded by
3 * max_patch_chars (not by max_patch_chars itself). -/
theorem fileLine_patch_policy_amended :
    (∀ f : FileChangeRecord, fileLine true 0 f = fileBaseLine f) ∧
    (∀ (f : FileChangeRecord) (C : Nat), 0 < C →
      (jsSlice f.patch C).length ≤ C ∧
      (String.mk (indentNl (jsSlice f.patch C).data)).length ≤ 3 * C ∧
      (fileLine true C f = fileBaseLine f ∨
        fileLine true C f = fileBaseLine f ++ "\n  patch:\n" ++
          String.mk (indentNl (jsSlice f.patch C).data))) := by
  constructor
  · intro f
    simp [fileLine, jsSlice]
  · intro f C _
    have hlen : (jsSlice f.patch C).length ≤ C := by rw [jsSlice_length]; omega
    refine ⟨hlen, ?_, ?_⟩
    · show (indentNl (jsSlice f.patch C).data).length ≤ 3 * C
      rw [indentNl_length]
      have hcount := List.count_le_length '\n' (jsSlice f.patch C).data
      have : (jsSlice f.patch C).data.length ≤ C := hlen
      omega
    · by_cases hp : jsSlice f.patch C = ""
      · left
        simp [fileLine, hp]
      · right
        simp [fileLine, hp]

/-- Witness for fileLine_patch_policy_amended at a concrete record with a
two-line patch and caps 0 and 2. -/
theorem fileLine_patch_policy_witness :
    fileLine true 0 ⟨"x", 1, 0, "modified", "a\nb"⟩ =
      fileBaseLine ⟨"x", 1, 0, "modified", "a\nb"⟩ ∧
    (jsSlice (FileChangeRecord.patch ⟨"x", 1, 0, "modified", "a\nb"⟩) 2).length ≤ 2 :=
  ⟨fileLine_patch_policy_amended.1 ⟨"x", 1, 0, "modified", "a\nb"⟩,
   (fileLine_patch_policy_amended.2 ⟨"x", 1, 0, "modified", "a\nb"⟩ 2 (by decide)).1⟩

/-- Counterexample to claim C10 as stated: patch a-newline-b truncated to
3 characters keeps its newline, the indentation rewrite then emits 5
characters, exceeding max_patch_chars = 3. -/
theorem fileLine_patch_length_cex :
    (String.mk (indentNl (jsSlice "a\nb" 3).data)).length = 5 ∧
    ¬ ((String.mk (indentNl (jsSlice "a\nb" 3).data)).length ≤ 3) ∧
    fileLine true 3 ⟨"x", 1, 0, "modified", "a\nb"⟩ =
      "- x (+1/-0) [modified]" ++ "\n  patch:\n" ++ "a\n  b" := by
  refine ⟨by decide, by decide, by decide⟩

/-! ## Summary output order (claim C4) -/

/-- The upstream PR metadata of the claim's scenario. -/
def scenarioPr : PrData :=
  ⟨"https://github.com/acme/widgets/pull/42", "Fix bug", "alice", "open",
    false, false, "main", "fix", 3, 2, 10, 4, "Fixes #1"⟩

/-- Two file-change records for the scenario. -/
def scenarioFiles : List FileChangeRecord :=
  [⟨"src/app.js", 7, 2, "modified", ""⟩, ⟨"lib/util.js", 3, 2, "added", ""⟩]

set_option maxRecDepth 8000 in
/-- Claim C4, amended: the tool's text output starts with the fixed
instructional preamble and a blank line; only then follow the PR line,
Title, Author, the state/draft/merged line, the base/head line, the
counts line, the body and the file list, in exactly the claimed order. -/
theorem summarize_output_order_amended :
    summarizeOutput scenarioPr 50 (scenarioFiles.map (fileLine true 2000)) "" =
      "Usá el siguiente material para generar un resumen. " ++
      "Incluí: objetivo, cambios principales, archivos tocados, impacto, riesgos, checklist de revisión, y sugerencias de test.\n\n" ++
      ("PR: https://github.com/acme/widgets/pull/42\n" ++
       "Title: Fix bug\n" ++
       "Author: alice\n" ++
       "State: open | Draft: no | Merged: no\n" ++
       "Base: main <- Head: fix\n" ++
       "Commits: 3 | Files changed: 2 | Additions: 10 | Deletions: 4\n" ++
       "\n" ++
       "Description (body):\n" ++
       "Fixes #1\n" ++
       "\n" ++
       "Changed files (up to 50):\n" ++
       "- src/app.js (+7/-2) [modified]\n\n- lib/util.js (+3/-2) [added]") ++ "" := by
  decide

set_option maxRecDepth 8000 in
/-- Counterexample to claim C4 as stated: at the claim's own scenario the
output does not begin with the PR line; its first characters are the
instructional preamble. -/
theorem summarize_output_order_cex :
    ¬ ((summarizeOutput scenarioPr 50 (scenarioFiles.map (fileLine true 2000)) "").data.take
        ("PR: https://github.com/acme/widgets/pull/42" : String).data.length
      = ("PR: https://github.com/acme/widgets/pull/42" : String).data) := by
  decide

/-! ## Upstream error propagation (claim C7) -/

/-- Claim C7. Any non-2xx response makes ghFetchJson and ghFetchText fail
with the error carrying the HTTP status and the body text, uniformly in
the status (one formula for every non-ok status, no case distinction),
and never produce a success value; and through the diff tool handler such
a failure aborts the whole invocation with that same error and no partial
result. -/
theorem ghFetch_error_propagation :
    (∀ (α : Type) (r : HttpResponse α), respOk r.status = false →
      ghFetchJson r = .error (ghErrorMsg r.status r.bodyText) ∧
      ghFetchText r = .error (ghErrorMsg r.status r.bodyText) ∧
      (∀ a : α, ¬ ghFetchJson r = .ok a) ∧
      (∀ s : String, ¬ ghFetchText r = .ok s)) ∧
    (∀ (upstream : String → HttpResponse String) (u : JsUrl) (C : Nat) (ref : PrRef),
      parsePrUrl u.hostname u.pathname = .ok ref →
      respOk (upstream (prApiUrl ref)).status = false →
      githubGetPullRequestDiff upstream u C =
        .error (ghErrorMsg (upstream (prApiUrl ref)).status
          (upstream (prApiUrl ref)).bodyText)) := by
  constructor
  · intro α r h
    refine ⟨by simp [ghFetchJson, h], by simp [ghFetchText, h], ?_, ?_⟩
    · intro a ha
      rw [ghFetchJson, h] at ha
      simp at ha
    · intro s hs
      rw [ghFetchText, h] at hs
      simp at hs
  · intro upstream u C ref hparse hbad
    simp [githubGetPullRequestDiff, hparse, ghFetchText, hbad]

/-- Witness for ghFetch_error_propagation: a 404 response, both at the
client and through the diff tool handler. -/
theorem ghFetch_error_propagation_witness :
    ghFetchJson (⟨404, "Not Found", ([] : List Nat)⟩ : HttpResponse (List Nat)) =
      .error (ghErrorMsg 404 "Not Found") ∧
    githubGetPullRequestDiff (fun _ => ⟨404, "Not Found", "ignored"⟩)
      ⟨"https://github.com/a/b/pull/1", "github.com", "/a/b/pull/1"⟩ 40000 =
      .error (ghErrorMsg 404 "Not Found") :=
  ⟨(ghFetch_error_propagation.1 (List Nat) ⟨404, "Not Found", []⟩ (by decide)).1,
   ghFetch_error_propagation.2 (fun _ => ⟨404, "Not Found", "ignored"⟩)
     ⟨"https://github.com/a/b/pull/1", "github.com", "/a/b/pull/1"⟩ 40000
     ⟨"a", "b", "1"⟩ (by decide) (by decide)⟩

/-! ## Empty pull-request list (claim C8) -/

/-- Claim C8. When the upstream returns an empty list of pull requests the
joined line list is the empty string, so the tool's text output is the
literal "(no PRs)"; through the handler, a successful empty-list response
yields exactly that text. -/
theorem listPullRequests_empty_no_prs :
    listPullRequestsText [] = "(no PRs)" ∧
    (∀ (upstream : String → HttpResponse (List PrListItem))
      (owner repo state : String) (per_page : Nat),
      respOk (upstream (pullsListUrl owner repo state per_page)).status = true →
      (upstream (pullsListUrl owner repo state per_page)).body = [] →
      githubListPullRequests upstream owner repo state per_page = .ok "(no PRs)") := by
  constructor
  · rfl
  · intro upstream owner repo state per_page hok hbody
    simp [githubListPullRequests, ghFetchJson, hok, hbody, listPullRequestsText]
    intro hcon
    exact absurd rfl hcon

/-- Witness for listPullRequests_empty_no_prs at a concrete upstream that
returns status 200 with an empty array. -/
theorem listPullRequests_empty_no_prs_witness :
    githubListPullRequests (fun _ => ⟨200, "[]", []⟩) "acme" "widgets" "open" 30 =
      .ok "(no PRs)" :=
  listPullRequests_empty_no_prs.2 (fun _ => ⟨200, "[]", []⟩) "acme" "widgets" "open" 30
    (by decide) rfl

end GithubMcp
